import Mathlib

/-!
Verification of the sigmatch signature matcher (src/sigmatch/matcher.py).

The embedding below translates `SignatureMatcher` and its methods into Lean.
Python `inspect.Parameter` values are modelled by the `Parameter` structure
(name, kind, default-presence); `inspect.Signature.from_callable` is modelled
by the `PyValue.callable` constructor carrying the ordered parameter list,
while `PyValue.notCallable` stands for any value that is not callable.
-/

namespace Sigmatch

/-- The five kinds of `inspect.Parameter`:
POSITIONAL_ONLY, POSITIONAL_OR_KEYWORD, VAR_POSITIONAL, KEYWORD_ONLY, VAR_KEYWORD. -/
inductive ParamKind where
  | positionalOnly
  | positionalOrKeyword
  | varPositional
  | keywordOnly
  | varKeyword
deriving DecidableEq, Repr

/-- One parameter of a candidate callable's signature: its name, its kind and
whether it has a default value (`parameter.default != parameter.empty`). -/
structure Parameter where
  name : String
  kind : ParamKind
  hasDefault : Bool
deriving DecidableEq, Repr

/-- First character of a Python identifier (ASCII fragment): letter or underscore. -/
def isIdentStart (c : Char) : Bool := c.isAlpha || c == '_'

/-- Later character of a Python identifier (ASCII fragment): letter, digit or underscore. -/
def isIdentContinue (c : Char) : Bool := c.isAlphanum || c == '_'

/-- Model of Python `str.isidentifier` (ASCII fragment): nonempty, starts with a
letter or underscore, continues with letters, digits or underscores.
In particular `"."`, `"*"` and `"**"` are not identifiers. -/
def isidentifier (s : String) : Bool :=
  match s.data with
  | [] => false
  | c :: cs => isIdentStart c && cs.all isIdentContinue

/-- The fields computed by `SignatureMatcher.__init__` from the token sequence. -/
structure SignatureMatcher where
  expected_signature : List String
  is_args : Bool
  is_kwargs : Bool
  number_of_position_args : Nat
  number_of_named_args : Nat
  names_of_named_args : List String
deriving DecidableEq, Repr

/-- Constructor `SignatureMatcher.__init__(*args)`:
`is_args = '*' in args`, `is_kwargs = '**' in args`,
`number_of_position_args = len([x for x in args if x == '.'])`,
`number_of_named_args = len([x for x in args if x.isidentifier()])`,
`names_of_named_args = list(set([x for x in args if x.isidentifier()]))`.
Python's `list(set(...))` produces the identifier tokens deduplicated in an
unspecified order; it is modelled by `List.dedup` of the same filtered list,
which has the same members (order is irrelevant to every use of this field). -/
def SignatureMatcher.init (args : List String) : SignatureMatcher :=
  { expected_signature := args
    is_args := args.contains "*"
    is_kwargs := args.contains "**"
    number_of_position_args := (args.filter (fun x => x == ".")).length
    number_of_named_args := (args.filter (fun x => isidentifier x)).length
    names_of_named_args := (args.filter (fun x => isidentifier x)).dedup }

/-- Python booleans used as integers under multiplication: True is 1, False is 0. -/
def b2i (b : Bool) : Nat := if b then 1 else 0

/-- Method `prove_is_args`: `self.is_args == bool(len([p for p in parameters if p.kind == VAR_POSITIONAL]))`. -/
def SignatureMatcher.prove_is_args (m : SignatureMatcher) (parameters : List Parameter) : Bool :=
  m.is_args == ((parameters.filter (fun p => p.kind == ParamKind.varPositional)).length != 0)

/-- Method `prove_is_kwargs`: `self.is_kwargs == bool(len([p for p in parameters if p.kind == VAR_KEYWORD]))`. -/
def SignatureMatcher.prove_is_kwargs (m : SignatureMatcher) (parameters : List Parameter) : Bool :=
  m.is_kwargs == ((parameters.filter (fun p => p.kind == ParamKind.varKeyword)).length != 0)

/-- Method `prove_number_of_position_args`: the count of parameters whose kind is
POSITIONAL_ONLY or POSITIONAL_OR_KEYWORD and whose default is empty must equal
`self.number_of_position_args`. -/
def SignatureMatcher.prove_number_of_position_args (m : SignatureMatcher) (parameters : List Parameter) : Bool :=
  m.number_of_position_args ==
    (parameters.filter (fun p =>
      (p.kind == ParamKind.positionalOnly || p.kind == ParamKind.positionalOrKeyword)
        && !p.hasDefault)).length

/-- Method `prove_number_of_named_args`: the count of parameters whose kind is
KEYWORD_ONLY or POSITIONAL_OR_KEYWORD and which have a default must equal
`self.number_of_named_args`. -/
def SignatureMatcher.prove_number_of_named_args (m : SignatureMatcher) (parameters : List Parameter) : Bool :=
  m.number_of_named_args ==
    (parameters.filter (fun p =>
      (p.kind == ParamKind.keywordOnly || p.kind == ParamKind.positionalOrKeyword)
        && p.hasDefault)).length

/-- Method `prove_names_of_named_args`: build the names of the defaulted named
parameters, then multiply (as integers) the membership tests of every expected
name; the final `bool(result)` is `result != 0`. -/
def SignatureMatcher.prove_names_of_named_args (m : SignatureMatcher) (parameters : List Parameter) : Bool :=
  let names_of_parameters :=
    (parameters.filter (fun p =>
      (p.kind == ParamKind.keywordOnly || p.kind == ParamKind.positionalOrKeyword)
        && p.hasDefault)).map (fun p => p.name)
  (m.names_of_named_args.foldl
    (fun result name => result * b2i (names_of_parameters.contains name)) 1) != 0

/-- A value passed to `match`: either not callable, or callable with the ordered
parameter list that `Signature.from_callable` reports for it. -/
inductive PyValue where
  | notCallable
  | callable (parameters : List Parameter)
deriving DecidableEq, Repr

/-- Modelled from the spec: the error taxonomy of section 7. `sigmatch/errors.py`
(defining `SignatureMismatchError`) is not among the sources; the not-callable
branch of `match` raises Python's `ValueError`, which the spec names
`NotCallableError`. The two are distinct, catchable error kinds. -/
inductive MatchError where
  | notCallableError
  | signatureMismatchError
deriving DecidableEq, Repr

/-- Method `SignatureMatcher.match(function, raise_exception=False)`: if the value is
not callable, raise (or return False); otherwise multiply the five predicate
results as integers, coerce to bool, and raise on a false result when asked to. -/
def SignatureMatcher.matchSig (m : SignatureMatcher) (function : PyValue)
    (raise_exception : Bool) : Except MatchError Bool :=
  match function with
  | .notCallable =>
    if raise_exception then .error .notCallableError else .ok false
  | .callable parameters =>
    let result : Nat :=
      b2i true
        * b2i (m.prove_is_args parameters)
        * b2i (m.prove_is_kwargs parameters)
        * b2i (m.prove_number_of_position_args parameters)
        * b2i (m.prove_number_of_named_args parameters)
        * b2i (m.prove_names_of_named_args parameters)
    let result' : Bool := result != 0
    if !result' && raise_exception then .error .signatureMismatchError
    else .ok result'

/-- The match method together with the state of the matcher object after the call: the
method body contains no assignment to any field of `self` (it only reads the
fields computed at construction), so the post-call object is the pre-call one. -/
def SignatureMatcher.matchWithState (m : SignatureMatcher) (function : PyValue)
    (raise_exception : Bool) : Except MatchError Bool × SignatureMatcher :=
  (m.matchSig function raise_exception, m)

/-- Number of var-positional parameters in a candidate parameter list
(the list comprehension filter of `prove_is_args`). -/
def varPositionalCount (ps : List Parameter) : Nat :=
  (ps.filter (fun p => p.kind == ParamKind.varPositional)).length

/-- Number of var-named parameters in a candidate parameter list
(the list comprehension filter of `prove_is_kwargs`). -/
def varKeywordCount (ps : List Parameter) : Nat :=
  (ps.filter (fun p => p.kind == ParamKind.varKeyword)).length

/-- Number of required positional parameters: kind positional-only or
positional-or-named, and no default value. -/
def requiredPositionalCount (ps : List Parameter) : Nat :=
  (ps.filter (fun p =>
    (p.kind == ParamKind.positionalOnly || p.kind == ParamKind.positionalOrKeyword)
      && !p.hasDefault)).length

/-- Number of defaulted named parameters: kind named-only or positional-or-named,
with a default value. -/
def defaultedNamedCount (ps : List Parameter) : Nat :=
  (ps.filter (fun p =>
    (p.kind == ParamKind.keywordOnly || p.kind == ParamKind.positionalOrKeyword)
      && p.hasDefault)).length

/-- Names of the defaulted named parameters of a candidate parameter list. -/
def defaultedNamedNames (ps : List Parameter) : List String :=
  (ps.filter (fun p =>
    (p.kind == ParamKind.keywordOnly || p.kind == ParamKind.positionalOrKeyword)
      && p.hasDefault)).map (fun p => p.name)

lemma b2i_ne_zero {b : Bool} : b2i b ≠ 0 ↔ b = true := by
  cases b <;> simp [b2i]

lemma foldl_mul_b2i (g : String → Bool) (l : List String) (a : Nat) :
    l.foldl (fun result name => result * b2i (g name)) a
      = a * (l.map (fun x => b2i (g x))).prod := by
  induction l generalizing a with
  | nil => simp
  | cons x xs ih => simp [ih, mul_assoc]

/-- The name-presence predicate holds exactly when every expected name occurs
among the names of the candidate's defaulted named parameters. -/
lemma prove_names_eq_true_iff (m : SignatureMatcher) (ps : List Parameter) :
    m.prove_names_of_named_args ps = true ↔
      ∀ name ∈ m.names_of_named_args, name ∈ defaultedNamedNames ps := by
  have key : m.prove_names_of_named_args ps =
      ((m.names_of_named_args.map
        (fun x => b2i ((defaultedNamedNames ps).contains x))).prod != 0) := by
    simp only [SignatureMatcher.prove_names_of_named_args, foldl_mul_b2i, one_mul,
      defaultedNamedNames]
  rw [key, bne_iff_ne, ne_eq, List.prod_eq_zero_iff]
  simp only [List.mem_map, not_exists, not_and]
  constructor
  · intro h name hmem
    exact List.elem_iff.mp (b2i_ne_zero.mp (h name hmem))
  · intro h name hmem
    exact b2i_ne_zero.mpr (List.elem_iff.mpr (h name hmem))

/-- The match method on a callable value, rewritten as a conditional on the conjunction of
the five predicates: the integer product of booleans is nonzero exactly when all
factors are `True`. -/
lemma matchSig_callable (m : SignatureMatcher) (ps : List Parameter) (r : Bool) :
    m.matchSig (.callable ps) r =
      if m.prove_is_args ps && m.prove_is_kwargs ps && m.prove_number_of_position_args ps
          && m.prove_number_of_named_args ps && m.prove_names_of_named_args ps
      then .ok true
      else if r then .error .signatureMismatchError else .ok false := by
  simp only [SignatureMatcher.matchSig]
  cases m.prove_is_args ps <;> cases m.prove_is_kwargs ps <;>
    cases m.prove_number_of_position_args ps <;> cases m.prove_number_of_named_args ps <;>
    cases m.prove_names_of_named_args ps <;> cases r <;> simp [b2i]

/-- The match outcome depends only on the five derived fields that the
predicates read; among the expected names only membership matters. -/
lemma matchSig_congr (m1 m2 : SignatureMatcher)
    (h1 : m1.is_args = m2.is_args) (h2 : m1.is_kwargs = m2.is_kwargs)
    (h3 : m1.number_of_position_args = m2.number_of_position_args)
    (h4 : m1.number_of_named_args = m2.number_of_named_args)
    (h5 : ∀ x, x ∈ m1.names_of_named_args ↔ x ∈ m2.names_of_named_args)
    (f : PyValue) (r : Bool) :
    m1.matchSig f r = m2.matchSig f r := by
  have hn : ∀ ps : List Parameter,
      m1.prove_names_of_named_args ps = m2.prove_names_of_named_args ps := by
    intro ps
    rw [Bool.eq_iff_iff, prove_names_eq_true_iff, prove_names_eq_true_iff]
    constructor
    · intro hall name hmem
      exact hall name ((h5 name).mpr hmem)
    · intro hall name hmem
      exact hall name ((h5 name).mp hmem)
  cases f with
  | notCallable => rfl
  | callable ps =>
    simp [SignatureMatcher.matchSig, SignatureMatcher.prove_is_args,
      SignatureMatcher.prove_is_kwargs, SignatureMatcher.prove_number_of_position_args,
      SignatureMatcher.prove_number_of_named_args, h1, h2, h3, h4, hn ps]

example : isidentifier "c" = true := by decide
example : isidentifier "." = false := by decide
example : isidentifier "*" = false := by decide
example : isidentifier "**" = false := by decide
example : isidentifier "c2" = true := by decide
example : isidentifier "_x" = true := by decide
example : isidentifier "" = false := by decide
example : isidentifier "2c" = false := by decide

example :
    (SignatureMatcher.init [".", ".", "c"]).matchSig
      (.callable [⟨"a", .positionalOrKeyword, false⟩, ⟨"b", .positionalOrKeyword, false⟩,
        ⟨"c", .positionalOrKeyword, true⟩]) false = .ok true := rfl

example :
    (SignatureMatcher.init [".", ".", "c"]).matchSig
      (.callable [⟨"a", .positionalOrKeyword, false⟩, ⟨"b", .positionalOrKeyword, false⟩,
        ⟨"c", .positionalOrKeyword, true⟩, ⟨"d", .varPositional, false⟩]) false = .ok false := rfl

example :
    (SignatureMatcher.init []).matchSig .notCallable true = .error .notCallableError := rfl

/-- C1: for every matcher and every invocable candidate, `match` returns true
(in either exception mode) if and only if all five predicates hold on the
candidate's parameter list: the var-positional presence predicate, the
var-named presence predicate, the required-positional count predicate, the
defaulted-named count predicate, and the named-name-presence predicate. -/
theorem claim_C1_match_iff_five_predicates (m : SignatureMatcher) (ps : List Parameter)
    (r : Bool) :
    m.matchSig (.callable ps) r = .ok true ↔
      (m.prove_is_args ps = true ∧ m.prove_is_kwargs ps = true ∧
       m.prove_number_of_position_args ps = true ∧
       m.prove_number_of_named_args ps = true ∧
       m.prove_names_of_named_args ps = true) := by
  rw [matchSig_callable]
  cases h1 : m.prove_is_args ps <;> cases h2 : m.prove_is_kwargs ps <;>
    cases h3 : m.prove_number_of_position_args ps <;>
    cases h4 : m.prove_number_of_named_args ps <;>
    cases h5 : m.prove_names_of_named_args ps <;> cases r <;> simp

/-- C2: a matcher built from a pattern with exactly `n` dot tokens has its
positional-count predicate hold on a candidate iff the candidate has exactly
`n` parameters of kind positional-only or positional-or-named without a
default value. -/
theorem claim_C2_positional_count (args : List String) (ps : List Parameter) :
    (SignatureMatcher.init args).prove_number_of_position_args ps = true ↔
      requiredPositionalCount ps = (args.filter (fun x => x == ".")).length := by
  rw [show (SignatureMatcher.init args).prove_number_of_position_args ps
      = ((args.filter (fun x => x == ".")).length == requiredPositionalCount ps) from rfl]
  rw [beq_iff_eq]
  exact eq_comm

/-- C3: on candidate lists with at most one var-positional parameter (which is
what Python signatures produce), the var-positional predicate holds iff the
pattern's `*`-presence flag coincides with the candidate having exactly one
var-positional parameter; in particular a `*` pattern rejects candidates
without one, and a `*`-free pattern rejects candidates with one. -/
theorem claim_C3_var_positional (args : List String) (ps : List Parameter)
    (h : varPositionalCount ps ≤ 1) :
    ((SignatureMatcher.init args).prove_is_args ps = true ↔
        args.contains "*" = (varPositionalCount ps == 1)) ∧
    (args.contains "*" = true → varPositionalCount ps = 0 →
      (SignatureMatcher.init args).prove_is_args ps = false) ∧
    (args.contains "*" = false → varPositionalCount ps = 1 →
      (SignatureMatcher.init args).prove_is_args ps = false) := by
  have e : (SignatureMatcher.init args).prove_is_args ps
      = (args.contains "*"
          == ((ps.filter (fun p => p.kind == ParamKind.varPositional)).length != 0)) := rfl
  simp only [varPositionalCount] at h ⊢
  rcases Nat.le_one_iff_eq_zero_or_eq_one.mp h with h0 | h0 <;>
    by_cases hc : "*" ∈ args <;>
      simp [e, h0, hc]

/-- C3 witness: a `*` pattern against a candidate with one var-positional
parameter. -/
theorem claim_C3_var_positional_witness :
    varPositionalCount [⟨"a", ParamKind.varPositional, false⟩] ≤ 1 ∧
    (((SignatureMatcher.init ["*"]).prove_is_args
        [⟨"a", ParamKind.varPositional, false⟩] = true ↔
      (["*"] : List String).contains "*"
        = (varPositionalCount [⟨"a", ParamKind.varPositional, false⟩] == 1)) ∧
    ((["*"] : List String).contains "*" = true →
      varPositionalCount [⟨"a", ParamKind.varPositional, false⟩] = 0 →
      (SignatureMatcher.init ["*"]).prove_is_args
        [⟨"a", ParamKind.varPositional, false⟩] = false) ∧
    ((["*"] : List String).contains "*" = false →
      varPositionalCount [⟨"a", ParamKind.varPositional, false⟩] = 1 →
      (SignatureMatcher.init ["*"]).prove_is_args
        [⟨"a", ParamKind.varPositional, false⟩] = false)) :=
  ⟨by decide, claim_C3_var_positional ["*"] [⟨"a", ParamKind.varPositional, false⟩] (by decide)⟩

/-- C4: the name-presence predicate holds iff every name in the matcher's
deduplicated name set appears among the names of the candidate's defaulted
named parameters; defaulted parameters with names outside the pattern are
irrelevant to this predicate. -/
theorem claim_C4_names_presence (m : SignatureMatcher) (ps : List Parameter) :
    m.prove_names_of_named_args ps = true ↔
      ∀ name ∈ m.names_of_named_args, name ∈ defaultedNamedNames ps :=
  prove_names_eq_true_iff m ps

/-- C5: a non-invocable input makes `match` raise the not-callable error when
`raise_exception` is true and return false without raising otherwise; an
invocable candidate failing at least one of the five predicates makes `match`
raise the signature-mismatch error when `raise_exception` is true and return
false otherwise; the two error kinds are distinct and hence distinguishable. -/
theorem claim_C5_error_modes (m : SignatureMatcher) (ps : List Parameter)
    (h : ¬(m.prove_is_args ps = true ∧ m.prove_is_kwargs ps = true ∧
        m.prove_number_of_position_args ps = true ∧
        m.prove_number_of_named_args ps = true ∧
        m.prove_names_of_named_args ps = true)) :
    m.matchSig .notCallable true = .error .notCallableError ∧
    m.matchSig .notCallable false = .ok false ∧
    m.matchSig (.callable ps) true = .error .signatureMismatchError ∧
    m.matchSig (.callable ps) false = .ok false ∧
    MatchError.notCallableError ≠ MatchError.signatureMismatchError := by
  have hfalse : (m.prove_is_args ps && m.prove_is_kwargs ps
      && m.prove_number_of_position_args ps && m.prove_number_of_named_args ps
      && m.prove_names_of_named_args ps) = false := by
    cases hb : (m.prove_is_args ps && m.prove_is_kwargs ps
        && m.prove_number_of_position_args ps && m.prove_number_of_named_args ps
        && m.prove_names_of_named_args ps)
    · rfl
    · simp only [Bool.and_eq_true] at hb
      exact absurd ⟨hb.1.1.1.1, hb.1.1.1.2, hb.1.1.2, hb.1.2, hb.2⟩ h
  refine ⟨rfl, rfl, ?_, ?_, by simp⟩ <;> rw [matchSig_callable, hfalse] <;> rfl

/-- C5 witness: the matcher for one positional argument against a callable with
no parameters. -/
theorem claim_C5_error_modes_witness :
    (¬((SignatureMatcher.init ["."]).prove_is_args [] = true ∧
        (SignatureMatcher.init ["."]).prove_is_kwargs [] = true ∧
        (SignatureMatcher.init ["."]).prove_number_of_position_args [] = true ∧
        (SignatureMatcher.init ["."]).prove_number_of_named_args [] = true ∧
        (SignatureMatcher.init ["."]).prove_names_of_named_args [] = true)) ∧
    ((SignatureMatcher.init ["."]).matchSig .notCallable true
        = .error .notCallableError ∧
      (SignatureMatcher.init ["."]).matchSig .notCallable false = .ok false ∧
      (SignatureMatcher.init ["."]).matchSig (.callable []) true
        = .error .signatureMismatchError ∧
      (SignatureMatcher.init ["."]).matchSig (.callable []) false = .ok false ∧
      MatchError.notCallableError ≠ MatchError.signatureMismatchError) :=
  ⟨by decide, claim_C5_error_modes (SignatureMatcher.init ["."]) [] (by decide)⟩

/-- C6: the pattern `('c', 'c')` counts its named tokens with duplicates
(`number_of_named_args = 2`) but deduplicates the name set; its defaulted-named
count predicate demands exactly two defaulted named parameters, so a candidate
whose only defaulted parameter is `c` does not match, while a candidate with
defaulted `c` and `d` does. -/
theorem claim_C6_duplicate_named_tokens :
    (SignatureMatcher.init ["c", "c"]).number_of_named_args = 2 ∧
    (SignatureMatcher.init ["c", "c"]).names_of_named_args = ["c"] ∧
    (∀ ps : List Parameter,
      (SignatureMatcher.init ["c", "c"]).prove_number_of_named_args ps = true ↔
        defaultedNamedCount ps = 2) ∧
    (SignatureMatcher.init ["c", "c"]).matchSig
      (.callable [⟨"c", ParamKind.positionalOrKeyword, true⟩]) false = .ok false ∧
    (SignatureMatcher.init ["c", "c"]).matchSig
      (.callable [⟨"c", ParamKind.positionalOrKeyword, true⟩,
        ⟨"d", ParamKind.positionalOrKeyword, true⟩]) false = .ok true := by
  refine ⟨by decide, by decide, ?_, rfl, rfl⟩
  intro ps
  rw [show (SignatureMatcher.init ["c", "c"]).prove_number_of_named_args ps
      = ((2 : Nat) == defaultedNamedCount ps) from rfl]
  rw [beq_iff_eq]
  exact eq_comm

/-- C7: a required keyword-only parameter (kind named-only, no default) is
invisible to all five predicates — inserting one anywhere into a candidate's
parameter list changes no predicate — and consequently the empty pattern
matches a callable whose only parameter is a required keyword-only one. -/
theorem claim_C7_required_keyword_only_ignored (m : SignatureMatcher)
    (ps1 ps2 : List Parameter) (p : Parameter)
    (hk : p.kind = ParamKind.keywordOnly) (hd : p.hasDefault = false) :
    m.prove_is_args (ps1 ++ p :: ps2) = m.prove_is_args (ps1 ++ ps2) ∧
    m.prove_is_kwargs (ps1 ++ p :: ps2) = m.prove_is_kwargs (ps1 ++ ps2) ∧
    m.prove_number_of_position_args (ps1 ++ p :: ps2)
      = m.prove_number_of_position_args (ps1 ++ ps2) ∧
    m.prove_number_of_named_args (ps1 ++ p :: ps2)
      = m.prove_number_of_named_args (ps1 ++ ps2) ∧
    m.prove_names_of_named_args (ps1 ++ p :: ps2)
      = m.prove_names_of_named_args (ps1 ++ ps2) ∧
    (SignatureMatcher.init []).matchSig (.callable [p]) false = .ok true := by
  have hfilter : ∀ g : Parameter → Bool, g p = false →
      List.filter g (ps1 ++ p :: ps2) = List.filter g (ps1 ++ ps2) := by
    intro g hg
    simp [List.filter_append, List.filter_cons, hg]
  refine ⟨?_, ?_, ?_, ?_, ?_, ?_⟩
  · exact congrArg (fun l : List Parameter => m.is_args == (l.length != 0))
      (hfilter (fun q => q.kind == ParamKind.varPositional) (by simp [hk]))
  · exact congrArg (fun l : List Parameter => m.is_kwargs == (l.length != 0))
      (hfilter (fun q => q.kind == ParamKind.varKeyword) (by simp [hk]))
  · exact congrArg (fun l : List Parameter => m.number_of_position_args == l.length)
      (hfilter (fun q =>
          (q.kind == ParamKind.positionalOnly || q.kind == ParamKind.positionalOrKeyword)
            && !q.hasDefault)
        (by simp [hk]))
  · exact congrArg (fun l : List Parameter => m.number_of_named_args == l.length)
      (hfilter (fun q =>
          (q.kind == ParamKind.keywordOnly || q.kind == ParamKind.positionalOrKeyword)
            && q.hasDefault)
        (by simp [hd]))
  · exact congrArg (fun l : List Parameter =>
        (m.names_of_named_args.foldl
          (fun result name => result * b2i ((l.map (fun q => q.name)).contains name)) 1) != 0)
      (hfilter (fun q =>
          (q.kind == ParamKind.keywordOnly || q.kind == ParamKind.positionalOrKeyword)
            && q.hasDefault)
        (by simp [hd]))
  · simp [SignatureMatcher.matchSig, SignatureMatcher.init, SignatureMatcher.prove_is_args,
      SignatureMatcher.prove_is_kwargs, SignatureMatcher.prove_number_of_position_args,
      SignatureMatcher.prove_number_of_named_args, SignatureMatcher.prove_names_of_named_args,
      List.filter_cons, hk, hd, b2i]

/-- C7 witness: inserting a required keyword-only parameter between two others
leaves every predicate unchanged, and the empty pattern accepts a callable with
only that parameter. -/
theorem claim_C7_required_keyword_only_ignored_witness :
    ((⟨"k", ParamKind.keywordOnly, false⟩ : Parameter).kind = ParamKind.keywordOnly) ∧
    ((SignatureMatcher.init ["."]).prove_is_args
        ([⟨"a", ParamKind.positionalOrKeyword, false⟩]
          ++ (⟨"k", ParamKind.keywordOnly, false⟩ : Parameter)
            :: [⟨"b", ParamKind.positionalOrKeyword, true⟩])
      = (SignatureMatcher.init ["."]).prove_is_args
        ([⟨"a", ParamKind.positionalOrKeyword, false⟩]
          ++ [⟨"b", ParamKind.positionalOrKeyword, true⟩]) ∧
    (SignatureMatcher.init ["."]).prove_is_kwargs
        ([⟨"a", ParamKind.positionalOrKeyword, false⟩]
          ++ (⟨"k", ParamKind.keywordOnly, false⟩ : Parameter)
            :: [⟨"b", ParamKind.positionalOrKeyword, true⟩])
      = (SignatureMatcher.init ["."]).prove_is_kwargs
        ([⟨"a", ParamKind.positionalOrKeyword, false⟩]
          ++ [⟨"b", ParamKind.positionalOrKeyword, true⟩]) ∧
    (SignatureMatcher.init ["."]).prove_number_of_position_args
        ([⟨"a", ParamKind.positionalOrKeyword, false⟩]
          ++ (⟨"k", ParamKind.keywordOnly, false⟩ : Parameter)
            :: [⟨"b", ParamKind.positionalOrKeyword, true⟩])
      = (SignatureMatcher.init ["."]).prove_number_of_position_args
        ([⟨"a", ParamKind.positionalOrKeyword, false⟩]
          ++ [⟨"b", ParamKind.positionalOrKeyword, true⟩]) ∧
    (SignatureMatcher.init ["."]).prove_number_of_named_args
        ([⟨"a", ParamKind.positionalOrKeyword, false⟩]
          ++ (⟨"k", ParamKind.keywordOnly, false⟩ : Parameter)
            :: [⟨"b", ParamKind.positionalOrKeyword, true⟩])
      = (SignatureMatcher.init ["."]).prove_number_of_named_args
        ([⟨"a", ParamKind.positionalOrKeyword, false⟩]
          ++ [⟨"b", ParamKind.positionalOrKeyword, true⟩]) ∧
    (SignatureMatcher.init ["."]).prove_names_of_named_args
        ([⟨"a", ParamKind.positionalOrKeyword, false⟩]
          ++ (⟨"k", ParamKind.keywordOnly, false⟩ : Parameter)
            :: [⟨"b", ParamKind.positionalOrKeyword, true⟩])
      = (SignatureMatcher.init ["."]).prove_names_of_named_args
        ([⟨"a", ParamKind.positionalOrKeyword, false⟩]
          ++ [⟨"b", ParamKind.positionalOrKeyword, true⟩]) ∧
    (SignatureMatcher.init []).matchSig
      (.callable [⟨"k", ParamKind.keywordOnly, false⟩]) false = .ok true) :=
  ⟨by decide, claim_C7_required_keyword_only_ignored (SignatureMatcher.init ["."])
    [⟨"a", ParamKind.positionalOrKeyword, false⟩]
    [⟨"b", ParamKind.positionalOrKeyword, true⟩]
    ⟨"k", ParamKind.keywordOnly, false⟩ (by decide) (by decide)⟩

/-- C8: a token that is not `.`, `*`, `**` and not a valid identifier
contributes to no derived count and no name set: inserting it anywhere into a
token sequence yields a matcher with the same match result on every candidate
in every exception mode. -/
theorem claim_C8_malformed_token_inert (t : String) (hdot : t ≠ ".") (hstar : t ≠ "*")
    (hstars : t ≠ "**") (hid : isidentifier t = false) (l1 l2 : List String)
    (f : PyValue) (r : Bool) :
    (SignatureMatcher.init (l1 ++ t :: l2)).matchSig f r
      = (SignatureMatcher.init (l1 ++ l2)).matchSig f r := by
  have hfilter : ∀ g : String → Bool, g t = false →
      List.filter g (l1 ++ t :: l2) = List.filter g (l1 ++ l2) := by
    intro g hg
    simp [List.filter_append, List.filter_cons, hg]
  have hcontains : ∀ s : String, s ≠ t →
      (l1 ++ t :: l2).contains s = (l1 ++ l2).contains s := by
    intro s hs
    rw [Bool.eq_iff_iff]
    simp [hs]
  apply matchSig_congr
  · exact hcontains "*" (fun e => hstar e.symm)
  · exact hcontains "**" (fun e => hstars e.symm)
  · exact congrArg List.length (hfilter (fun x => x == ".") (by simp [hdot]))
  · exact congrArg List.length (hfilter (fun x => isidentifier x) hid)
  · intro x
    rw [show (SignatureMatcher.init (l1 ++ t :: l2)).names_of_named_args
        = ((l1 ++ t :: l2).filter (fun x => isidentifier x)).dedup from rfl,
      show (SignatureMatcher.init (l1 ++ l2)).names_of_named_args
        = ((l1 ++ l2).filter (fun x => isidentifier x)).dedup from rfl,
      List.mem_dedup, List.mem_dedup, hfilter (fun x => isidentifier x) hid]

/-- C8 witness: inserting the malformed token `..` between the tokens `.` and
`c` changes nothing about a concrete match. -/
theorem claim_C8_malformed_token_inert_witness :
    (".." ≠ ".") ∧ (".." ≠ "*") ∧ (".." ≠ "**") ∧ isidentifier ".." = false ∧
    (SignatureMatcher.init (["."] ++ ".." :: ["c"])).matchSig
        (.callable [⟨"a", ParamKind.positionalOrKeyword, false⟩,
          ⟨"c", ParamKind.positionalOrKeyword, true⟩]) false
      = (SignatureMatcher.init (["."] ++ ["c"])).matchSig
        (.callable [⟨"a", ParamKind.positionalOrKeyword, false⟩,
          ⟨"c", ParamKind.positionalOrKeyword, true⟩]) false :=
  ⟨by decide, by decide, by decide, by decide,
    claim_C8_malformed_token_inert ".." (by decide) (by decide) (by decide) (by decide)
      ["."] ["c"]
      (.callable [⟨"a", ParamKind.positionalOrKeyword, false⟩,
        ⟨"c", ParamKind.positionalOrKeyword, true⟩]) false⟩

/-- C9: matchers built from a token sequence and from any permutation of it
return the same match result on every candidate: only counts, name sets and the
presence of `*` and `**` matter, not token order. -/
theorem claim_C9_permutation_invariant (l l' : List String) (h : l.Perm l')
    (f : PyValue) (r : Bool) :
    (SignatureMatcher.init l).matchSig f r = (SignatureMatcher.init l').matchSig f r := by
  apply matchSig_congr
  · show l.contains "*" = l'.contains "*"
    rw [Bool.eq_iff_iff]
    simp [h.mem_iff]
  · show l.contains "**" = l'.contains "**"
    rw [Bool.eq_iff_iff]
    simp [h.mem_iff]
  · exact (h.filter (fun x => x == ".")).length_eq
  · exact (h.filter (fun x => isidentifier x)).length_eq
  · intro x
    rw [show (SignatureMatcher.init l).names_of_named_args
        = (l.filter (fun x => isidentifier x)).dedup from rfl,
      show (SignatureMatcher.init l').names_of_named_args
        = (l'.filter (fun x => isidentifier x)).dedup from rfl,
      List.mem_dedup, List.mem_dedup]
    exact (h.filter (fun x => isidentifier x)).mem_iff

/-- C9 witness: a three-token pattern and a rotation of it agree on a concrete
candidate. -/
theorem claim_C9_permutation_invariant_witness :
    (["c", ".", "*"] : List String).Perm [".", "*", "c"] ∧
    (SignatureMatcher.init ["c", ".", "*"]).matchSig
        (.callable [⟨"a", ParamKind.positionalOrKeyword, false⟩,
          ⟨"c", ParamKind.positionalOrKeyword, true⟩,
          ⟨"d", ParamKind.varPositional, false⟩]) false
      = (SignatureMatcher.init [".", "*", "c"]).matchSig
        (.callable [⟨"a", ParamKind.positionalOrKeyword, false⟩,
          ⟨"c", ParamKind.positionalOrKeyword, true⟩,
          ⟨"d", ParamKind.varPositional, false⟩]) false :=
  ⟨by decide, claim_C9_permutation_invariant ["c", ".", "*"] [".", "*", "c"] (by decide)
    (.callable [⟨"a", ParamKind.positionalOrKeyword, false⟩,
      ⟨"c", ParamKind.positionalOrKeyword, true⟩,
      ⟨"d", ParamKind.varPositional, false⟩]) false⟩

/-- C10: `match` is idempotent and mutates nothing: the matcher after a call
(succeeding or failing, in either exception mode) is the matcher before it,
and calling again with the same candidate yields the same result. -/
theorem claim_C10_idempotent_stateless (m : SignatureMatcher) (f : PyValue) (r : Bool) :
    (m.matchWithState f r).2 = m ∧
    ((m.matchWithState f r).2.matchWithState f r).1 = (m.matchWithState f r).1 :=
  ⟨rfl, rfl⟩

end Sigmatch
